import Mathlib

/-
Verification of the probability-estimation engine of the
Quantum-Multi-Armed-Bandit-Finance-Demo repository.

The engine is embedded shallowly:
 * floats that may be NaN are modelled by `RVal` (a rational value or NaN);
 * numpy/pandas reductions (`mean` of a boolean or float series) are modelled
   exactly, including the NaN they produce on an empty array;
 * Python's `min`/`max` (first-argument-biased under NaN, since every
   comparison with NaN is false) are modelled by `pymin`/`pymax`;
 * the external Qiskit backend call (`iae.estimate`) is an oracle parameter
   `IAEOutcome`: it either raises or returns a result object whose
   recognised attributes (`estimation`, `estimates`, `value`) are modelled as
   optional fields;
 * the orchestrator loop of `app.py` (`/api/estimate`) is `estimate`, one
   instrument's processing is `estimateInstrument`.
-/

namespace QDemo

/-- A floating-point value that is either NaN or a finite real, modelled as a
rational. -/
inductive RVal where
  | nan : RVal
  | val : ℚ → RVal
deriving DecidableEq, Repr

/-- Python `max(a, b)`: returns `b` when `b > a`, else `a`; every comparison
with NaN is false, so a NaN in either slot leaves the first argument. -/
def pymax (a b : RVal) : RVal :=
  match a, b with
  | RVal.val x, RVal.val y => if x < y then RVal.val y else RVal.val x
  | _, _ => a

/-- Python `min(a, b)`: returns `b` when `b < a`, else `a`; NaN in either slot
leaves the first argument. -/
def pymin (a b : RVal) : RVal :=
  match a, b with
  | RVal.val x, RVal.val y => if y < x then RVal.val y else RVal.val x
  | _, _ => a

/-- `float((samples > 0).mean())` over a cleaned (NaN-free) sample list:
fraction of strictly positive entries; numpy's mean of an empty array is
NaN. -/
def posMean (samples : List ℚ) : RVal :=
  if samples.length = 0 then RVal.nan
  else RVal.val ((samples.countP (fun x => decide (0 < x)) : ℚ) / (samples.length : ℚ))

/-- `qae_module.classical_positive_prob_estimate(samples)`:
`float((np.asarray(samples) > 0).mean())`. -/
def classical_positive_prob_estimate (samples : List ℚ) : RVal :=
  posMean samples

/-- `float(series.mean())`: arithmetic mean of the cleaned series; NaN on an
empty series. -/
def seriesMean (samples : List ℚ) : RVal :=
  if samples.length = 0 then RVal.nan
  else RVal.val (samples.sum / (samples.length : ℚ))

/-- Line 62 of `qae_module.py`: `min(max(empirical_p, 0.0), 1.0)`. -/
def clampRV (p : RVal) : RVal :=
  pymin (pymax p (RVal.val 0)) (RVal.val 1)

/-- Line 93 of `qae_module.py`: `max(0.0, min(1.0, est))`. -/
def finalClamp (est : RVal) : RVal :=
  pymax (RVal.val 0) (pymin (RVal.val 1) est)

/-- The clamp of line 62 on a finite probability value. -/
def clampEmpirical (p : ℚ) : ℚ := min (max p 0) 1

/-- Lines 62-65 of `qae_module.py` on a finite empirical probability: clamp,
then rotation angle `theta = 2 * arcsin (sqrt p)`. -/
noncomputable def thetaOf (p : ℚ) : ℝ :=
  2 * Real.arcsin (Real.sqrt ((clampEmpirical p : ℚ) : ℝ))

/-- The attributes of the object returned by `iae.estimate` that
`quantum_positive_prob_estimate` probes with `hasattr` (lines 80-90):
`estimation`, `estimates` (a possibly empty list; its entries stand for
`e.estimation` of each element), `value`. -/
structure IAEResult where
  estimation : Option ℚ
  estimates : List ℚ
  value : Option ℚ
deriving DecidableEq, Repr

/-- Behaviour of the external backend call `iae.estimate(...)`: it either
raises (any exception, e.g. simulated backend unavailability) or returns a
result object. -/
inductive IAEOutcome where
  | raises : String → IAEOutcome
  | returns : IAEResult → IAEOutcome
deriving DecidableEq, Repr

/-- `qae_module.quantum_positive_prob_estimate(samples, shots)`.
`qiskitAvailable` models the module flag `QISKIT_AVAILABLE`; `shots` is only
forwarded to the backend (`QuantumInstance`), whose behaviour is the
`outcome` oracle.  The function raises (`Except.error`) when Qiskit is
unavailable or the backend call raises; otherwise it extracts an estimate
from the result's attributes in the order `estimation`, `estimates[0]`,
`value`, defaulting to the clamped empirical probability, and returns it
clamped to `[0, 1]`. -/
def quantum_positive_prob_estimate (qiskitAvailable : Bool) (samples : List ℚ)
    (shots : Int) (outcome : IAEOutcome) : Except String RVal :=
  if qiskitAvailable = false then
    Except.error "Qiskit not available in this environment."
  else
    let empirical_p := clampRV (posMean samples)
    let _ := shots
    match outcome with
    | IAEOutcome.raises msg => Except.error msg
    | IAEOutcome.returns result =>
      let est : RVal :=
        match result.estimation with
        | some e => RVal.val e
        | none =>
          match result.estimates with
          | e :: _ => RVal.val e
          | [] =>
            match result.value with
            | some v => RVal.val v
            | none => empirical_p
      Except.ok (finalClamp est)

/-- One instrument's entry in the `results` mapping of `/api/estimate`:
either an error record or a full record; the `ok` fields are, in order,
`classical_mean`, `classical_positive_prob`, `quantum_positive_prob`,
`method_used`, `n_samples`. -/
inductive InstrResult where
  | error : String → InstrResult
  | ok : RVal → RVal → RVal → String → Nat → InstrResult
deriving DecidableEq, Repr

/-- `if math.isnan(x): x = 0.0` (lines 121-124 and 139-140 of `app.py`). -/
def coerceNaN (v : RVal) : RVal :=
  match v with
  | RVal.nan => RVal.val 0
  | x => x

/-- The body of the per-ticker loop of `/api/estimate` (lines 107-148 of
`app.py`).  `series` is `returns[t].dropna()`: `none` when the lookup raises
(`error: no data`), `some s` with the cleaned sample list otherwise;
an empty cleaned series yields `error: no valid data`.  Otherwise the record
is assembled: classical statistics NaN-coerced, then the quantum path (with
fallback to the classical estimate on any exception) or the classical path,
then NaN-coercion of the quantum-slot value. -/
def estimateInstrument (qiskitAvailable : Bool) (series : Option (List ℚ))
    (use_quantum : Bool) (shots : Int) (outcome : IAEOutcome) : InstrResult :=
  match series with
  | none => InstrResult.error "no data"
  | some s =>
    if s.length = 0 then InstrResult.error "no valid data"
    else
      let classical_mean := coerceNaN (seriesMean s)
      let classical_pos_prob := coerceNaN (posMean s)
      let qm : RVal × String :=
        if use_quantum then
          match quantum_positive_prob_estimate qiskitAvailable s shots outcome with
          | Except.ok v => (v, "quantum")
          | Except.error _ => (classical_positive_prob_estimate s, "fallback")
        else
          (classical_positive_prob_estimate s, "classical")
      InstrResult.ok classical_mean classical_pos_prob (coerceNaN qm.1) qm.2 s.length

/-- The `/api/estimate` handler (lines 74-151 of `app.py`) after data
retrieval: `use_quantum` defaults to `True`, `shots` to `1024`, and the
handler iterates over the requested tickers, producing one entry per ticker.
`seriesOf` is the cleaned per-ticker series lookup and `outcomeOf` the
backend oracle (which may depend on the shot count it is handed). -/
def estimate (qiskitAvailable : Bool) (tickers : List String)
    (use_quantum_field : Option Bool) (shots_field : Option Int)
    (seriesOf : String → Option (List ℚ))
    (outcomeOf : String → Int → IAEOutcome) : List (String × InstrResult) :=
  let use_quantum := use_quantum_field.getD true
  let shots := shots_field.getD 1024
  tickers.map (fun t =>
    (t, estimateInstrument qiskitAvailable (seriesOf t) use_quantum shots (outcomeOf t shots)))

/-- `coerceNaN` never outputs NaN. -/
theorem coerceNaN_ne_nan (v : RVal) : coerceNaN v ≠ RVal.nan := by
  cases v <;> simp [coerceNaN]

/-- On a non-empty sample list the classical estimator yields a finite value,
so the NaN coercion of `app.py` leaves it unchanged. -/
theorem coerceNaN_classical_of_ne_nil (s : List ℚ) (h : s ≠ []) :
    coerceNaN (classical_positive_prob_estimate s) = classical_positive_prob_estimate s := by
  have hlen : s.length ≠ 0 := by simpa using h
  simp [classical_positive_prob_estimate, posMean, hlen, coerceNaN]

/-- Claim C1 (confirmed): for every non-empty sample list, whenever the
quantum-style path raises any exception, the orchestrator emits a complete
result record (no exception escapes) whose method is the fallback variant
(`"fallback"`) and whose `quantum_positive_prob` field equals
`classical_positive_prob_estimate samples`. -/
theorem C1_quantum_failure_falls_back (qa : Bool) (s : List ℚ) (shots : Int)
    (oc : IAEOutcome) (msg : String) (hne : s ≠ [])
    (hfail : quantum_positive_prob_estimate qa s shots oc = Except.error msg) :
    estimateInstrument qa (some s) true shots oc =
      InstrResult.ok (coerceNaN (seriesMean s)) (coerceNaN (posMean s))
        (classical_positive_prob_estimate s) "fallback" s.length := by
  have hlen : ¬ s.length = 0 := by simpa using hne
  simp [estimateInstrument, hlen, hfail, coerceNaN_classical_of_ne_nil s hne]

/-- Concrete instance of C1: Qiskit unavailable, one-sample series. -/
theorem C1_quantum_failure_falls_back_witness :
    ([(1:ℚ)] ≠ [] ∧
      quantum_positive_prob_estimate false [(1:ℚ)] 1024 (IAEOutcome.raises "boom") =
        Except.error "Qiskit not available in this environment.") ∧
    estimateInstrument false (some [(1:ℚ)]) true 1024 (IAEOutcome.raises "boom") =
      InstrResult.ok (coerceNaN (seriesMean [(1:ℚ)])) (coerceNaN (posMean [(1:ℚ)]))
        (classical_positive_prob_estimate [(1:ℚ)]) "fallback" (List.length [(1:ℚ)]) :=
  ⟨⟨by simp, rfl⟩,
    C1_quantum_failure_falls_back false [(1:ℚ)] 1024 (IAEOutcome.raises "boom")
      "Qiskit not available in this environment." (by simp) rfl⟩

/-- Claim C2 (counterexample): on the empty sequence the classical estimator
computes numpy's mean of an empty array, which is NaN, not the claimed 0.0. -/
theorem C2_counterexample :
    classical_positive_prob_estimate ([] : List ℚ) = RVal.nan ∧
    classical_positive_prob_estimate ([] : List ℚ) ≠ RVal.val 0 :=
  ⟨rfl, by simp [classical_positive_prob_estimate, posMean]⟩

/-- Claim C2 (corrected): `classical_positive_prob_estimate []` returns NaN
(the mean of an empty array), not 0.0; no exception is raised (the function
is total and yields a value). -/
theorem C2_amended_empty_returns_nan :
    classical_positive_prob_estimate ([] : List ℚ) = RVal.nan := rfl

/-- Claim C3 (counterexample): an instrument whose cleaned series is empty
gets the record `error: "no valid data"`, not the claimed
`error: "no data"` (that string is used for the ticker-lookup failure
path instead). -/
theorem C3_counterexample :
    estimateInstrument true (some ([] : List ℚ)) true 1024 (IAEOutcome.raises "x") =
      InstrResult.error "no valid data" ∧
    estimateInstrument true (some ([] : List ℚ)) true 1024 (IAEOutcome.raises "x") ≠
      InstrResult.error "no data" :=
  ⟨rfl, by simp [estimateInstrument]⟩

/-- Claim C3 (corrected): for every instrument whose sample series is empty
after cleaning, the orchestrator emits exactly the record
`error: "no valid data"` — no other fields, no further computation, no
crash — regardless of configuration and backend behaviour. -/
theorem C3_empty_series_error_record (qa : Bool) (uq : Bool) (shots : Int) (oc : IAEOutcome) :
    estimateInstrument qa (some ([] : List ℚ)) uq shots oc =
      InstrResult.error "no valid data" := rfl

/-- Claim C4 (counterexample): at input probability 0 the code's clamp
(line 62 of `qae_module.py`) leaves the value at 0 — outside the claimed
interval `[1e-3, 1-1e-3]` — and the resulting rotation angle is the
degenerate 0. -/
theorem C4_counterexample :
    clampEmpirical 0 = 0 ∧ ¬ ((1 : ℚ)/1000 ≤ clampEmpirical 0) ∧ thetaOf 0 = 0 := by
  refine ⟨by norm_num [clampEmpirical], by norm_num [clampEmpirical], ?_⟩
  norm_num [thetaOf, clampEmpirical, Real.sqrt_zero, Real.arcsin_zero]

/-- Claim C4 (corrected): the amplitude-encoding step clamps `p` into
`[0, 1]` (not `[1e-3, 1-1e-3]`): for `p` already in `[0, 1]` the clamp is
the identity, and the rotation angle is `theta = 2 * arcsin (sqrt p)`. -/
theorem C4_amended_clamp_to_unit_interval (p : ℚ) (h0 : 0 ≤ p) (h1 : p ≤ 1) :
    clampEmpirical p = p ∧
    thetaOf p = 2 * Real.arcsin (Real.sqrt ((p : ℝ))) ∧
    0 ≤ clampEmpirical p ∧ clampEmpirical p ≤ 1 := by
  have hc : clampEmpirical p = p := by
    rw [clampEmpirical, max_eq_left h0, min_eq_left h1]
  refine ⟨hc, ?_, ?_, ?_⟩
  · rw [thetaOf, hc]
  · rw [hc]; exact h0
  · rw [hc]; exact h1

/-- Concrete instance of the corrected C4 at `p = 1/2`. -/
theorem C4_amended_clamp_to_unit_interval_witness :
    (0 ≤ (1/2 : ℚ) ∧ (1/2 : ℚ) ≤ 1) ∧
    (clampEmpirical (1/2) = 1/2 ∧
      thetaOf (1/2) = 2 * Real.arcsin (Real.sqrt (((1/2 : ℚ) : ℝ))) ∧
      0 ≤ clampEmpirical (1/2) ∧ clampEmpirical (1/2) ≤ 1) :=
  ⟨⟨by norm_num, by norm_num⟩,
    C4_amended_clamp_to_unit_interval (1/2) (by norm_num) (by norm_num)⟩

/-- Claim C5 (confirmed): on a non-empty list of finite samples the
classical estimator returns exactly (number of strictly positive samples) /
(total number of samples), which lies in `[0, 1]`. -/
theorem C5_classical_fraction (s : List ℚ) (hne : s ≠ []) :
    classical_positive_prob_estimate s =
      RVal.val ((s.countP (fun x => decide (0 < x)) : ℚ) / (s.length : ℚ)) ∧
    0 ≤ ((s.countP (fun x => decide (0 < x)) : ℚ) / (s.length : ℚ)) ∧
    ((s.countP (fun x => decide (0 < x)) : ℚ) / (s.length : ℚ)) ≤ 1 := by
  have hlen : ¬ s.length = 0 := by simpa using hne
  have hpos : (0 : ℚ) < (s.length : ℚ) := by
    exact_mod_cast Nat.pos_of_ne_zero hlen
  refine ⟨by simp [classical_positive_prob_estimate, posMean, hlen], ?_, ?_⟩
  · positivity
  · rw [div_le_one hpos]
    exact_mod_cast s.countP_le_length _

/-- Concrete instance of C5 on the two-sample list `[1, -2]`. -/
theorem C5_classical_fraction_witness :
    [(1:ℚ), -2] ≠ [] ∧
    (classical_positive_prob_estimate [(1:ℚ), -2] =
      RVal.val (([(1:ℚ), -2].countP (fun x => decide (0 < x)) : ℚ) /
        (List.length [(1:ℚ), -2] : ℚ)) ∧
    0 ≤ (([(1:ℚ), -2].countP (fun x => decide (0 < x)) : ℚ) /
        (List.length [(1:ℚ), -2] : ℚ)) ∧
    (([(1:ℚ), -2].countP (fun x => decide (0 < x)) : ℚ) /
        (List.length [(1:ℚ), -2] : ℚ)) ≤ 1) :=
  ⟨by simp, C5_classical_fraction [(1:ℚ), -2] (by simp)⟩

/-- Claim C6 (counterexample): with Qiskit available and a backend result
carrying none of the recognised estimate attributes, the quantum-style
estimator does not signal failure: it silently returns the clamped
empirical probability (here 1, for the all-positive sample `[1]`). -/
theorem C6_counterexample :
    quantum_positive_prob_estimate true [(1:ℚ)] 1024 (IAEOutcome.returns ⟨none, [], none⟩) =
      Except.ok (RVal.val 1) ∧
    ¬ ∃ msg, quantum_positive_prob_estimate true [(1:ℚ)] 1024
        (IAEOutcome.returns ⟨none, [], none⟩) = Except.error msg := by
  have h : quantum_positive_prob_estimate true [(1:ℚ)] 1024
      (IAEOutcome.returns ⟨none, [], none⟩) = Except.ok (RVal.val 1) := by
    norm_num [quantum_positive_prob_estimate, clampRV, finalClamp, posMean, pymin, pymax,
      List.countP, List.countP.go]
  refine ⟨h, ?_⟩
  rintro ⟨msg, hmsg⟩
  rw [h] at hmsg
  cases hmsg

/-- Claim C6 (corrected): the estimator signals failure when Qiskit is
unavailable or the backend call raises, but when the backend result carries
no recognisable estimate it silently returns the clamped empirical
probability instead of signalling failure. -/
theorem C6_amended_failure_signalling (s : List ℚ) (shots : Int) (msg : String)
    (r : IAEResult) :
    quantum_positive_prob_estimate false s shots (IAEOutcome.returns r) =
      Except.error "Qiskit not available in this environment." ∧
    quantum_positive_prob_estimate true s shots (IAEOutcome.raises msg) =
      Except.error msg ∧
    quantum_positive_prob_estimate true s shots (IAEOutcome.returns ⟨none, [], none⟩) =
      Except.ok (finalClamp (clampRV (posMean s))) :=
  ⟨rfl, rfl, rfl⟩

/-- Claim C7 (counterexample): a request with shot count 0 is not rejected:
the instrument is fully processed and a complete value record is emitted. -/
theorem C7_counterexample :
    estimate true ["A"] none (some 0) (fun _ => some [(1:ℚ)])
      (fun _ _ => IAEOutcome.returns ⟨some (1/2), [], none⟩) =
      [("A", InstrResult.ok (RVal.val 1) (RVal.val 1) (RVal.val (1/2)) "quantum" 1)] := by
  norm_num [estimate, estimateInstrument, seriesMean, posMean, classical_positive_prob_estimate,
    coerceNaN, quantum_positive_prob_estimate, finalClamp, clampRV, pymin, pymax,
    List.countP, List.countP.go]

/-- Claim C7 (corrected): a non-positive shot count is never rejected as a
configuration error — the handler proceeds to per-instrument estimation
exactly as for any other shot count, processing every requested
instrument. -/
theorem C7_amended_no_shot_validation (qa : Bool) (tickers : List String)
    (uq : Option Bool) (shots : Int) (seriesOf : String → Option (List ℚ))
    (outcomeOf : String → Int → IAEOutcome) (hshots : shots ≤ 0) :
    estimate qa tickers uq (some shots) seriesOf outcomeOf =
      tickers.map (fun t =>
        (t, estimateInstrument qa (seriesOf t) (uq.getD true) shots (outcomeOf t shots))) := rfl

/-- Concrete instance of the corrected C7 at shot count 0. -/
theorem C7_amended_no_shot_validation_witness :
    (0 : Int) ≤ 0 ∧
    estimate true ["A"] none (some 0) (fun _ => some [(1:ℚ)])
        (fun _ _ => IAEOutcome.raises "x") =
      ["A"].map (fun t =>
        (t, estimateInstrument true ((fun _ => some [(1:ℚ)]) t)
          ((none : Option Bool).getD true) 0 ((fun _ _ => IAEOutcome.raises "x") t 0))) :=
  ⟨le_refl 0,
    C7_amended_no_shot_validation true ["A"] none 0 (fun _ => some [(1:ℚ)])
      (fun _ _ => IAEOutcome.raises "x") (le_refl 0)⟩

/-- Claim C8 (confirmed): every requested ticker gets exactly one entry in
the result list, and each entry is that ticker's own independent
computation — so a failure on one instrument cannot abort or alter the
processing of the others. -/
theorem C8_every_instrument_entered (qa : Bool) (tickers : List String)
    (uq : Option Bool) (shots_field : Option Int)
    (seriesOf : String → Option (List ℚ)) (outcomeOf : String → Int → IAEOutcome) :
    ((estimate qa tickers uq shots_field seriesOf outcomeOf).map Prod.fst = tickers) ∧
    (∀ t ∈ tickers,
      (t, estimateInstrument qa (seriesOf t) (uq.getD true) (shots_field.getD 1024)
          (outcomeOf t (shots_field.getD 1024)))
        ∈ estimate qa tickers uq shots_field seriesOf outcomeOf) := by
  constructor
  · rw [estimate, List.map_map]
    exact List.map_id tickers
  · intro t ht
    exact List.mem_map.mpr ⟨t, ht, rfl⟩

/-- Concrete instance of C8 for a two-ticker batch where the first ticker
has no data and the second succeeds. -/
theorem C8_every_instrument_entered_witness :
    ((estimate true ["A", "B"] none none
        (fun t => if t = "B" then some [(1:ℚ)] else none)
        (fun _ _ => IAEOutcome.raises "x")).map Prod.fst = ["A", "B"]) ∧
    ("B", estimateInstrument true
        ((fun t => if t = "B" then some [(1:ℚ)] else none) "B")
        ((none : Option Bool).getD true) ((none : Option Int).getD 1024)
        ((fun _ _ => IAEOutcome.raises "x") "B" ((none : Option Int).getD 1024)))
      ∈ estimate true ["A", "B"] none none
        (fun t => if t = "B" then some [(1:ℚ)] else none)
        (fun _ _ => IAEOutcome.raises "x") :=
  ⟨(C8_every_instrument_entered true ["A", "B"] none none
      (fun t => if t = "B" then some [(1:ℚ)] else none)
      (fun _ _ => IAEOutcome.raises "x")).1,
    (C8_every_instrument_entered true ["A", "B"] none none
      (fun t => if t = "B" then some [(1:ℚ)] else none)
      (fun _ _ => IAEOutcome.raises "x")).2 "B" (by simp)⟩

/-- Claim C9 (confirmed): every emitted non-error record has NaN-free
`classical_mean`, `classical_positive_prob` and `quantum_positive_prob`
fields — each passes through the orchestrator's NaN-to-0.0 coercion before
emission. -/
theorem C9_no_nan_in_record (qa : Bool) (series : Option (List ℚ)) (uq : Bool)
    (shots : Int) (oc : IAEOutcome) (cm cp qp : RVal) (m : String) (n : Nat)
    (h : estimateInstrument qa series uq shots oc = InstrResult.ok cm cp qp m n) :
    cm ≠ RVal.nan ∧ cp ≠ RVal.nan ∧ qp ≠ RVal.nan := by
  match series with
  | none => exact absurd h (by simp [estimateInstrument])
  | some s =>
    by_cases hs : s.length = 0
    · exact absurd h (by simp [estimateInstrument, hs])
    · have h' := h
      simp only [estimateInstrument, hs, if_false, InstrResult.ok.injEq] at h'
      obtain ⟨hcm, hcp, hqp, -, -⟩ := h'
      exact ⟨hcm ▸ coerceNaN_ne_nan _, hcp ▸ coerceNaN_ne_nan _, hqp ▸ coerceNaN_ne_nan _⟩

/-- Concrete instance of C9 on the classical path with one sample. -/
theorem C9_no_nan_in_record_witness :
    estimateInstrument true (some [(1:ℚ)]) false 1024 (IAEOutcome.raises "x") =
      InstrResult.ok (RVal.val 1) (RVal.val 1) (RVal.val 1) "classical" 1 ∧
    (RVal.val 1 ≠ RVal.nan ∧ RVal.val 1 ≠ RVal.nan ∧ RVal.val 1 ≠ RVal.nan) := by
  have h : estimateInstrument true (some [(1:ℚ)]) false 1024 (IAEOutcome.raises "x") =
      InstrResult.ok (RVal.val 1) (RVal.val 1) (RVal.val 1) "classical" 1 := by
    norm_num [estimateInstrument, seriesMean, posMean, classical_positive_prob_estimate,
      coerceNaN, List.countP, List.countP.go]
  exact ⟨h, C9_no_nan_in_record true (some [(1:ℚ)]) false 1024 (IAEOutcome.raises "x")
    (RVal.val 1) (RVal.val 1) (RVal.val 1) "classical" 1 h⟩

/-- Claim C10 (confirmed): a request that omits `use_quantum` behaves
exactly like one with `use_quantum = true`, and with that default the
quantum path is attempted for every non-empty instrument: the resulting
method is `"quantum"` on success or `"fallback"` on failure, never
`"classical"`. -/
theorem C10_use_quantum_defaults_true (qa : Bool) (tickers : List String)
    (shots_field : Option Int) (seriesOf : String → Option (List ℚ))
    (outcomeOf : String → Int → IAEOutcome) (s : List ℚ) (shots : Int)
    (oc : IAEOutcome) (hne : s ≠ []) :
    estimate qa tickers none shots_field seriesOf outcomeOf =
      estimate qa tickers (some true) shots_field seriesOf outcomeOf ∧
    ∃ cm cp qp n m, estimateInstrument qa (some s) ((none : Option Bool).getD true) shots oc =
        InstrResult.ok cm cp qp m n ∧ (m = "quantum" ∨ m = "fallback") := by
  have hlen : ¬ s.length = 0 := by simpa using hne
  constructor
  · rfl
  · cases hq : quantum_positive_prob_estimate qa s shots oc with
    | ok v =>
      refine ⟨coerceNaN (seriesMean s), coerceNaN (posMean s), coerceNaN v, s.length,
        "quantum", ?_, Or.inl rfl⟩
      simp [estimateInstrument, Option.getD, hlen, hq]
    | error e =>
      refine ⟨coerceNaN (seriesMean s), coerceNaN (posMean s),
        coerceNaN (classical_positive_prob_estimate s), s.length, "fallback", ?_, Or.inr rfl⟩
      simp [estimateInstrument, Option.getD, hlen, hq]

/-- Concrete instance of C10 with a failing backend and one sample. -/
theorem C10_use_quantum_defaults_true_witness :
    [(1:ℚ)] ≠ [] ∧
    (estimate true [] none none (fun _ => none) (fun _ _ => IAEOutcome.raises "x") =
        estimate true [] (some true) none (fun _ => none) (fun _ _ => IAEOutcome.raises "x") ∧
      ∃ cm cp qp n m, estimateInstrument true (some [(1:ℚ)])
          ((none : Option Bool).getD true) 1024 (IAEOutcome.raises "x") =
          InstrResult.ok cm cp qp m n ∧ (m = "quantum" ∨ m = "fallback")) :=
  ⟨by simp,
    C10_use_quantum_defaults_true true [] none (fun _ => none)
      (fun _ _ => IAEOutcome.raises "x") [(1:ℚ)] 1024 (IAEOutcome.raises "x") (by simp)⟩

end QDemo
